import Mathlib

/-!
Shallow embedding of the stream-supervisor core of the `command-center-vms-BE`
repository (Go): the RTSP→HLS service (registry, start/stop, health monitor,
restart policy, segment garbage collector) and the RTSP→WebRTC service
(registry, IVF frame demuxer and pacer).

Machine integers: Go `uint` camera ids and counters are modelled as `Nat`
(no overflow is reachable in the claims); `time.Time` / `time.Duration`
values are modelled as `Nat` nanoseconds.  `time.Since(t) > d` with a
possibly-future `t` yields the same branch as truncated `Nat` subtraction
(`now - t = 0` when `t > now`, hence not `> d`), so the `Nat` model takes
the same branch as the Go `int64` comparison on every input.

Filesystem and process effects are passed in explicitly: whether the
process handle exists, whether the liveness probe succeeds, the playlist
stat result, directory listings and playlist bytes are inputs; launching
a conversion goroutine is an output flag.
-/

namespace RTSP

/-- One nanosecond-denominated second, mirroring Go `time.Second`. -/
def second : Nat := 1000000000

/-- Embedding of `StreamInfo` (services/rtsp_service.go).  The process
handle `FFmpegCmd`/`Process` is tracked as the boolean `hasFFmpegCmd`
(nil-ness is all the supervisor code inspects on the struct itself;
aliveness of the underlying OS process is a world input to the monitor).
`FFmpegStdout` is an unused field in the source and is omitted. -/
structure StreamInfo where
  hlsURL : String
  hasFFmpegCmd : Bool
  rtspURL : String
  outputPath : String
  cameraID : Nat
  lastUpdate : Nat
  restartCount : Nat
  isHealthy : Bool
  useMemoryStream : Bool
  deriving Repr, DecidableEq

/-- The registry `activeStreams : map[uint]*StreamInfo`, as an association
list with Go-map semantics (at most one binding per key is maintained by
the operations below). -/
abbrev Registry := List (Nat × StreamInfo)

/-- Go map read `m[k]`. -/
def mapGet (m : Registry) (k : Nat) : Option StreamInfo :=
  m.lookup k

/-- Go map assignment `m[k] = v`: replaces any existing binding. -/
def mapSet (m : Registry) (k : Nat) (v : StreamInfo) : Registry :=
  (k, v) :: m.filter (fun p => p.1 != k)

/-- Go map `delete(m, k)`. -/
def mapDelete (m : Registry) (k : Nat) : Registry :=
  m.filter (fun p => p.1 != k)

/-- Number of bindings a registry holds for one camera id. -/
def countFor (m : Registry) (k : Nat) : Nat :=
  m.countP (fun p => p.1 == k)

/-- `RTSPConfig` (config/config.go). -/
structure RTSPConfig where
  streamPath : String
  outputPath : String
  deriving Repr, DecidableEq

/-- Output descriptor construction in `StartStream`:
`fmt.Sprintf("%s/camera_%d/playlist.m3u8", s.config.StreamPath, cameraID)`. -/
def hlsURLFor (cfg : RTSPConfig) (cameraID : Nat) : String :=
  cfg.streamPath ++ "/camera_" ++ toString cameraID ++ "/playlist.m3u8"

/-- Playlist path construction in `StartStream`:
`filepath.Join(outputPath, "camera_<id>", "playlist.m3u8")`. -/
def playlistFileFor (cfg : RTSPConfig) (cameraID : Nat) : String :=
  cfg.outputPath ++ "/camera_" ++ toString cameraID ++ "/playlist.m3u8"

/-- Embedding of `RTSPService.StartStream` (services/rtsp_service.go):
if an entry exists, return its HLS URL and change nothing; otherwise
create the per-camera directory (`mkdirOk` is the `os.MkdirAll` outcome),
build the fresh `StreamInfo` exactly as the source literal does, launch
the conversion goroutine, and insert the entry.  Result is the returned
`(string, error)` pair together with the updated registry. -/
def StartStream (cfg : RTSPConfig) (m : Registry) (cameraID : Nat)
    (rtspURL : String) (now : Nat) (mkdirOk : Bool) :
    Except String String × Registry :=
  match mapGet m cameraID with
  | some streamInfo => (Except.ok streamInfo.hlsURL, m)
  | none =>
      if mkdirOk then
        let streamInfo : StreamInfo :=
          { hlsURL := hlsURLFor cfg cameraID
            hasFFmpegCmd := false
            rtspURL := rtspURL
            outputPath := playlistFileFor cfg cameraID
            cameraID := cameraID
            lastUpdate := now
            restartCount := 0
            isHealthy := false
            useMemoryStream := false }
        (Except.ok (hlsURLFor cfg cameraID), mapSet m cameraID streamInfo)
      else
        (Except.error "failed to create HLS directory", m)

/-- Embedding of `RTSPService.StopStream`: not-found error when no entry
exists; otherwise kill the owned process (`killOk` is the `Process.Kill`
outcome — on failure the source only logs) and delete the entry.  The
returned error never depends on `killOk`. -/
def StopStream (m : Registry) (cameraID : Nat) (killOk : Bool) :
    Except String Unit × Registry :=
  match mapGet m cameraID with
  | none => (Except.error ("stream not found for camera " ++ toString cameraID), m)
  | some streamInfo =>
      -- kill failure on streamInfo's process is printed, not propagated
      let _ := streamInfo
      let _ := killOk
      (Except.ok (), mapDelete m cameraID)

/-- Embedding of `RTSPService.GetStreamHealth`. -/
def GetStreamHealth (m : Registry) (cameraID : Nat) : Except String Bool :=
  match mapGet m cameraID with
  | none => Except.error ("stream not found for camera " ++ toString cameraID)
  | some streamInfo => Except.ok streamInfo.isHealthy

/-- Embedding of `RTSPService.GetStreamURL`. -/
def GetStreamURL (m : Registry) (cameraID : Nat) : Option String :=
  match mapGet m cameraID with
  | none => none
  | some streamInfo => some streamInfo.hlsURL

/-- Embedding of `restartStreamUnsafe`: kills the existing process
(an effect on the OS process, not on the tracked fields), then either
caps out (counter at the ceiling 5: mark unhealthy, no relaunch) or
increments the counter, marks unhealthy and relaunches asynchronously.
The boolean reports whether a `convertRTSPToHLS` goroutine was launched. -/
def restartStreamUnsafe (streamInfo : StreamInfo) : StreamInfo × Bool :=
  if streamInfo.restartCount ≥ 5 then
    ({ streamInfo with isHealthy := false }, false)
  else
    ({ streamInfo with
        restartCount := streamInfo.restartCount + 1
        isHealthy := false }, true)

/-- What one monitor tick decided for one entry. -/
inductive HealthVerdict where
  | restarted
  | markedHealthy
  | waited
  deriving Repr, DecidableEq

/-- Embedding of the per-entry body of `checkStreamHealth` (the loop over
`activeStreams`).  World inputs: `alive` is the signal-0 liveness probe
result for the entry's process, `playlistMod` the `os.Stat` result on the
playlist (`some t` = modification time `t` nanoseconds, `none` = stat
error), `now` the current time in nanoseconds.  Returns the mutated entry,
the verdict, and whether a new conversion goroutine was launched.
The 20-second staleness threshold and the 30-second startup grace period
are the source's literals. -/
def checkStreamHealthEntry (streamInfo : StreamInfo) (alive : Bool)
    (playlistMod : Option Nat) (now : Nat) : StreamInfo × HealthVerdict × Bool :=
  if streamInfo.hasFFmpegCmd then
    if alive = false then
      -- process is dead, restart stream
      let r := restartStreamUnsafe streamInfo
      (r.1, HealthVerdict.restarted, r.2)
    else
      match playlistMod with
      | some modTime =>
          if now - modTime > 20 * second then
            let r := restartStreamUnsafe streamInfo
            (r.1, HealthVerdict.restarted, r.2)
          else
            ({ streamInfo with lastUpdate := modTime, isHealthy := true },
             HealthVerdict.markedHealthy, false)
      | none =>
          -- playlist missing: grace period while the process is alive
          if streamInfo.hasFFmpegCmd && alive && (now - streamInfo.lastUpdate < 30 * second) then
            (streamInfo, HealthVerdict.waited, false)
          else
            let r := restartStreamUnsafe streamInfo
            (r.1, HealthVerdict.restarted, r.2)
  else
    -- process handle absent, restart stream
    let r := restartStreamUnsafe streamInfo
    (r.1, HealthVerdict.restarted, r.2)

/-- One full monitor tick over the registry: every entry is passed through
`checkStreamHealthEntry` (after segment cleanup, which does not touch the
registry); no entry is ever inserted or removed by the monitor. -/
def checkStreamHealth (m : Registry) (alive : Nat → Bool)
    (playlistMod : Nat → Option Nat) (now : Nat) : Registry :=
  m.map (fun p => (p.1, (checkStreamHealthEntry p.2 (alive p.1) (playlistMod p.1) now).1))

/-- Embedding of the mutation `convertRTSPToHLS` performs right after
`cmd.Start()` succeeds: entry marked not yet healthy, restart counter
reset to zero, `LastUpdate` set to the launch time; the process handle
was assigned just before the start call. -/
def convertStartSuccess (streamInfo : StreamInfo) (now : Nat) : StreamInfo :=
  { streamInfo with
      hasFFmpegCmd := true
      isHealthy := false
      restartCount := 0
      lastUpdate := now }

/-- Mutation performed when `cmd.Start()` fails: only the health flag is
cleared. -/
def convertStartFailure (streamInfo : StreamInfo) : StreamInfo :=
  { streamInfo with hasFFmpegCmd := true, isHealthy := false }

/-- Mutation performed when `cmd.Wait()` returns an error: the entry is
marked unhealthy and left for the monitor to restart. -/
def convertExit (streamInfo : StreamInfo) : StreamInfo :=
  { streamInfo with isHealthy := false }

/-- `filepath.Base` restricted to the paths the collector feeds it (playlist
lines with the `.ts` suffix, hence no trailing separator): the component
after the last `/`. -/
def baseName (p : String) : String :=
  (p.splitOn "/").getLastD p

/-- The referenced-segment set `cleanupOldSegments` extracts from the
playlist text: split on newlines, trim, skip empty and `#`-comment lines,
keep base names of lines ending in `.ts`. -/
def activeSegments (playlistContent : String) : List String :=
  ((playlistContent.splitOn "\n").map String.trim).filterMap (fun line =>
    if line == "" || line.startsWith "#" then none
    else if line.endsWith ".ts" then some (baseName line)
    else none)

/-- Embedding of `cleanupOldSegments`: `playlistData` is the
`os.ReadFile` result on the playlist (`none` = read error: skip the
cycle), `dirEntries` the `os.ReadDir` listing of the segment directory
(`none` = read error).  Returns the names the collector removes — the
directory entries with the `.ts` suffix that are not in the playlist's
referenced set.  (`os.Remove` failures only lower the logged counter.) -/
def cleanupOldSegments (playlistData : Option String)
    (dirEntries : Option (List String)) : List String :=
  match playlistData with
  | none => []  -- cannot read playlist, skip cleanup
  | some playlistContent =>
      match dirEntries with
      | none => []
      | some files =>
          files.filter (fun name =>
            name.endsWith ".ts" && !((activeSegments playlistContent).contains name))

end RTSP

namespace WebRTC

/-- Embedding of `WebRTCStream` (the WebRTC service's per-camera entry).
Peer connections are tracked by their connection-id keys; the video track
and process handles are tracked by presence. -/
structure WebRTCStream where
  cameraID : Nat
  rtspURL : String
  peerConnections : List String
  hasVideoTrack : Bool
  isActive : Bool
  hasFFmpegCmd : Bool
  deriving Repr, DecidableEq

abbrev Registry := List (Nat × WebRTCStream)

/-- Go map read. -/
def mapGet (m : Registry) (k : Nat) : Option WebRTCStream :=
  m.lookup k

/-- Go map assignment (replaces any existing binding). -/
def mapSet (m : Registry) (k : Nat) (v : WebRTCStream) : Registry :=
  (k, v) :: m.filter (fun p => p.1 != k)

/-- The struct literal `WebRTCService.StartStream` builds: empty peer
set, inactive, no track and no process yet. -/
def freshStream (cameraID : Nat) (rtspURL : String) : WebRTCStream :=
  { cameraID := cameraID
    rtspURL := rtspURL
    peerConnections := []
    hasVideoTrack := false
    isActive := false
    hasFFmpegCmd := false }

/-- Embedding of `WebRTCService.StartStream`: return with no effect only
when an entry exists and is active; otherwise store a fresh entry
(replacing any inactive one) and launch `convertRTSPToWebRTC`.  The
boolean reports whether the conversion goroutine was launched. -/
def StartStream (m : Registry) (cameraID : Nat) (rtspURL : String) :
    Registry × Bool :=
  match mapGet m cameraID with
  | some stream =>
      if stream.isActive then (m, false)
      else (mapSet m cameraID (freshStream cameraID rtspURL), true)
  | none => (mapSet m cameraID (freshStream cameraID rtspURL), true)

/-! ### IVF frame demuxer (`readAndSendVP8Frames`)

The byte stream from the transcoder's standard output is a list of bytes
(`Nat`s below 256 in reality; the parser never relies on the bound for
payload bytes).  The embedding returns the list of frames delivered to
the WebRTC track, in delivery order. -/

/-- The 4-byte little-endian length read in the frame loop:
`uint32(b0) | uint32(b1)<<8 | uint32(b2)<<16 | uint32(b3)<<24`. -/
def le32 (b0 b1 b2 b3 : Nat) : Nat :=
  b0 + b1 * 256 + b2 * 65536 + b3 * 16777216

/-- The frame loop of `readAndSendVP8Frames`: read a 4-byte length
(stop at end of stream), skip zero-length records, otherwise read exactly
that many payload bytes (stop if the stream ends short) and deliver them
as one frame. -/
def readFrames (input : List Nat) : List (List Nat) :=
  match input with
  | b0 :: b1 :: b2 :: b3 :: rest =>
      let frameSize := le32 b0 b1 b2 b3
      if frameSize = 0 then
        readFrames rest
      else if rest.length < frameSize then
        []
      else
        rest.take frameSize :: readFrames (rest.drop frameSize)
  | _ => []
termination_by input.length
decreasing_by
  · simp; omega
  · simp; omega

/-- The bytes of the `DKIF` IVF signature. -/
def dkif : List Nat := [68, 75, 73, 70]

/-- Embedding of `readAndSendVP8Frames`: read the 32-byte IVF header
(fail delivering nothing if the stream is shorter), verify the `DKIF`
signature (fail delivering nothing on mismatch), then run the frame
loop on the remainder.  Returns the frames delivered to the track. -/
def readAndSendVP8Frames (input : List Nat) : List (List Nat) :=
  if input.length < 32 then []
  else if (input.take 4) ≠ dkif then []
  else readFrames (input.drop 32)

/-- Little-endian encoding of a record length, inverse of `le32` below
`2^32`. -/
def le4 (n : Nat) : List Nat :=
  [n % 256, n / 256 % 256, n / 65536 % 256, n / 16777216 % 256]

/-- A length-prefixed IVF record for one payload. -/
def encodeRecord (payload : List Nat) : List Nat :=
  le4 payload.length ++ payload

/-- A well-formed container stream: `DKIF`, 28 further header bytes, then
the concatenated records. -/
def ivfStream (headerRest : List Nat) (records : List (List Nat)) : List Nat :=
  dkif ++ headerRest ++ (records.map encodeRecord).flatten

/-! ### Frame pacing (`readAndSendVP8Frames` timing)

The pacer is modelled on an explicit wall-clock timeline in nanoseconds.
State is `lastFrameTime`.  For each frame, `readDelay` nanoseconds pass
while its bytes are read (`now := lastFrameTime + readDelay` is the
`time.Now()` call); if less than one nominal interval elapsed the loop
sleeps until the interval has elapsed, then delivers; `writeDelay`
nanoseconds pass inside `track.WriteSample` before `lastFrameTime` is
re-read.  Go `time.Sleep` sleeps at least the requested duration; the
model takes the exact duration, the worst case for the spacing bound. -/

/-- `frameDuration := time.Duration(33_333_333)` — 33.33 ms. -/
def frameDuration : Nat := 33333333

/-- Delivery timestamps of the paced loop, given `lastFrameTime` and the
per-frame read/write delays. -/
def paceTimes (lastFrameTime : Nat) : List (Nat × Nat) → List Nat
  | [] => []
  | (readDelay, writeDelay) :: rest =>
      let now := lastFrameTime + readDelay
      let elapsed := now - lastFrameTime
      let delivery := if elapsed < frameDuration then lastFrameTime + frameDuration else now
      delivery :: paceTimes (delivery + writeDelay) rest

end WebRTC

/-! ### Concrete inputs used by the closed witness theorems -/

/-- A sample configuration (the defaults from config/config.go). -/
def cfg0 : RTSP.RTSPConfig :=
  { streamPath := "/streams", outputPath := "./hls_output" }

/-- A sample registered HLS entry for camera 7. -/
def info7 : RTSP.StreamInfo :=
  { hlsURL := "/streams/camera_7/playlist.m3u8"
    hasFFmpegCmd := true
    rtspURL := "rtsp://cam7"
    outputPath := "./hls_output/camera_7/playlist.m3u8"
    cameraID := 7
    lastUpdate := 0
    restartCount := 0
    isHealthy := true
    useMemoryStream := false }

/-- An HLS entry that has consumed all five restart attempts. -/
def info7exhausted : RTSP.StreamInfo :=
  { info7 with restartCount := 5, isHealthy := false }

/-- An unhealthy HLS entry with two consumed restart attempts. -/
def info7unhealthy : RTSP.StreamInfo :=
  { info7 with restartCount := 2, isHealthy := false }

/-- A sample inactive WebRTC entry for camera 3 (its transcoder exited). -/
def wstream3 : WebRTC.WebRTCStream :=
  { cameraID := 3
    rtspURL := "rtsp://cam3"
    peerConnections := ["conn-a"]
    hasVideoTrack := true
    isActive := false
    hasFFmpegCmd := true }

/-! ## Helper lemmas -/

namespace RTSP

theorem mapGet_mapSet_self (m : Registry) (k : Nat) (v : StreamInfo) :
    mapGet (mapSet m k v) k = some v := by
  simp [mapGet, mapSet, List.lookup]

theorem lookup_filter_ne (m : Registry) (k : Nat) :
    (m.filter (fun p => p.1 != k)).lookup k = none := by
  induction m with
  | nil => simp
  | cons hd tl ih =>
      by_cases h : hd.1 = k
      · simpa [List.filter, h] using ih
      · have hb : (hd.1 != k) = true := by simpa [bne] using h
        have hk : (k == hd.1) = false := by
          simpa using fun e => h e.symm
        simp [List.filter, hb, List.lookup, hk, ih]

theorem mapGet_mapDelete_self (m : Registry) (k : Nat) :
    mapGet (mapDelete m k) k = none := by
  simpa [mapGet, mapDelete] using lookup_filter_ne m k

theorem countP_filter_ne (m : Registry) (k : Nat) :
    (m.filter (fun p => p.1 != k)).countP (fun p => p.1 == k) = 0 := by
  induction m with
  | nil => simp
  | cons hd tl ih =>
      by_cases h : hd.1 = k
      · simp [List.filter, h, ih]
      · have hb : (hd.1 != k) = true := by simpa [bne] using h
        have hc : (hd.1 == k) = false := by simpa using h
        simp [List.filter, hb, List.countP_cons, hc, ih]

theorem countFor_mapSet_self (m : Registry) (k : Nat) (v : StreamInfo) :
    countFor (mapSet m k v) k = 1 := by
  simp [countFor, mapSet, List.countP_cons, countP_filter_ne]

theorem mapGet_checkStreamHealth (m : Registry) (alive : Nat → Bool)
    (playlistMod : Nat → Option Nat) (now : Nat) (k : Nat) :
    mapGet (checkStreamHealth m alive playlistMod now) k
      = (mapGet m k).map
          (fun i => (checkStreamHealthEntry i (alive k) (playlistMod k) now).1) := by
  induction m with
  | nil => simp [mapGet, checkStreamHealth]
  | cons hd tl ih =>
      by_cases h : k = hd.1
      · simp [mapGet, checkStreamHealth, List.lookup, h]
      · have hk : (k == hd.1) = false := by simpa using h
        simpa [mapGet, checkStreamHealth, List.lookup, hk] using ih

theorem restartStreamUnsafe_count_le (j : StreamInfo) (h : j.restartCount ≤ 5) :
    (restartStreamUnsafe j).1.restartCount ≤ 5 := by
  unfold restartStreamUnsafe
  split <;> simp <;> omega

theorem restartStreamUnsafe_count_ge (j : StreamInfo) :
    j.restartCount ≤ (restartStreamUnsafe j).1.restartCount := by
  unfold restartStreamUnsafe
  split <;> simp

theorem checkStreamHealthEntry_count_le (j : StreamInfo) (a : Bool)
    (p : Option Nat) (n : Nat) (h : j.restartCount ≤ 5) :
    (checkStreamHealthEntry j a p n).1.restartCount ≤ 5 := by
  unfold checkStreamHealthEntry
  split
  · split
    · exact restartStreamUnsafe_count_le j h
    · cases p with
      | some t =>
          simp only
          split
          · exact restartStreamUnsafe_count_le j h
          · simpa using h
      | none =>
          simp only
          split
          · simpa using h
          · exact restartStreamUnsafe_count_le j h
  · exact restartStreamUnsafe_count_le j h

theorem checkStreamHealthEntry_count_ge (j : StreamInfo) (a : Bool)
    (p : Option Nat) (n : Nat) :
    j.restartCount ≤ (checkStreamHealthEntry j a p n).1.restartCount := by
  unfold checkStreamHealthEntry
  split
  · split
    · exact restartStreamUnsafe_count_ge j
    · cases p with
      | some t =>
          simp only
          split
          · exact restartStreamUnsafe_count_ge j
          · simp
      | none =>
          simp only
          split
          · simp
          · exact restartStreamUnsafe_count_ge j
  · exact restartStreamUnsafe_count_ge j

end RTSP

namespace WebRTC

theorem wmapGet_mapSet_self (m : Registry) (k : Nat) (v : WebRTCStream) :
    mapGet (mapSet m k v) k = some v := by
  simp [mapGet, mapSet, List.lookup]

theorem le32_le4 (n : Nat) (h : n < 4294967296) :
    le32 (n % 256) (n / 256 % 256) (n / 65536 % 256) (n / 16777216 % 256) = n := by
  unfold le32
  omega

theorem readFrames_encodeRecord (p rest : List Nat) (h : p.length < 4294967296) :
    readFrames (encodeRecord p ++ rest)
      = if p.isEmpty then readFrames rest else p :: readFrames rest := by
  have hcons : encodeRecord p ++ rest
      = p.length % 256 :: p.length / 256 % 256 :: p.length / 65536 % 256 ::
        p.length / 16777216 % 256 :: (p ++ rest) := by
    simp [encodeRecord, le4]
  rw [hcons, readFrames, le32_le4 p.length h]
  by_cases h0 : p.length = 0
  · have hp : p = [] := List.length_eq_zero.mp h0
    simp [hp]
  · have hlt : ¬ (p ++ rest).length < p.length := by
      simp [List.length_append]
    have htake : (p ++ rest).take p.length = p := List.take_left p rest
    have hdrop : (p ++ rest).drop p.length = rest := List.drop_left p rest
    have hne : p.isEmpty = false := by
      cases p with
      | nil => simp at h0
      | cons a l => simp
    simp [h0, hlt, htake, hdrop, hne]

theorem readFrames_flatten (records : List (List Nat))
    (h : ∀ r ∈ records, r.length < 4294967296) :
    readFrames ((records.map encodeRecord).flatten)
      = records.filter (fun r => !r.isEmpty) := by
  induction records with
  | nil => simp [readFrames]
  | cons hd tl ih =>
      have hhd : hd.length < 4294967296 := h hd (by simp)
      have htl : ∀ r ∈ tl, r.length < 4294967296 := fun r hr => h r (by simp [hr])
      have : ((hd :: tl).map encodeRecord).flatten
          = encodeRecord hd ++ (tl.map encodeRecord).flatten := by simp
      rw [this, readFrames_encodeRecord hd _ hhd, ih htl]
      by_cases he : hd.isEmpty
      · simp [he, List.filter]
      · have : hd.isEmpty = false := by simpa using he
        simp [this, List.filter]

theorem paceTimes_head_ge (last : Nat) (delays : List (Nat × Nat)) (b : Nat)
    (hb : (paceTimes last delays).head? = some b) :
    last + frameDuration ≤ b := by
  cases delays with
  | nil => simp [paceTimes] at hb
  | cons d rest =>
      obtain ⟨r, w⟩ := d
      simp only [paceTimes, List.head?_cons, Option.some.injEq] at hb
      subst hb
      split <;> omega

theorem paceTimes_chain (last : Nat) (delays : List (Nat × Nat)) :
    List.Chain' (fun a b => a + frameDuration ≤ b) (paceTimes last delays) := by
  induction delays generalizing last with
  | nil => simp [paceTimes]
  | cons d rest ih =>
      obtain ⟨r, w⟩ := d
      simp only [paceTimes]
      refine List.chain'_cons'.mpr ⟨?_, ih _⟩
      intro b hb
      have hle := paceTimes_head_ge _ rest b hb
      omega

end WebRTC

/-! ## Claim theorems -/

/-- C1: if the HLS registry already holds an entry for a camera,
`StartStream` returns that entry's HLS URL — for any source RTSP URL —
leaves the registry unchanged and keeps exactly one entry for that
camera; hence two consecutive starts for the same camera return the same
descriptor and create exactly one entry. -/
theorem hls_startStream_idempotent (cfg : RTSP.RTSPConfig) (m : RTSP.Registry)
    (cameraID : Nat) (url1 url2 : String) (now1 now2 : Nat) (ok2 : Bool)
    (info : RTSP.StreamInfo)
    (hget : RTSP.mapGet m cameraID = some info)
    (hcount : RTSP.countFor m cameraID = 1) :
    (RTSP.StartStream cfg m cameraID url2 now2 ok2 = (Except.ok info.hlsURL, m)
      ∧ RTSP.countFor m cameraID = 1)
  ∧ (∀ m0 : RTSP.Registry, RTSP.mapGet m0 cameraID = none →
      (RTSP.StartStream cfg (RTSP.StartStream cfg m0 cameraID url1 now1 true).2
          cameraID url2 now2 ok2).1
        = (RTSP.StartStream cfg m0 cameraID url1 now1 true).1
      ∧ (RTSP.StartStream cfg (RTSP.StartStream cfg m0 cameraID url1 now1 true).2
          cameraID url2 now2 ok2).2
        = (RTSP.StartStream cfg m0 cameraID url1 now1 true).2
      ∧ RTSP.countFor (RTSP.StartStream cfg m0 cameraID url1 now1 true).2 cameraID = 1) := by
  refine ⟨⟨?_, hcount⟩, ?_⟩
  · simp [RTSP.StartStream, hget]
  · intro m0 h0
    refine ⟨?_, ?_, ?_⟩ <;>
      simp [RTSP.StartStream, h0, RTSP.mapGet_mapSet_self, RTSP.countFor_mapSet_self]

/-- Closed witness for `hls_startStream_idempotent`: a second start for
camera 7 with a different RTSP URL returns the original descriptor and
leaves the registry untouched. -/
theorem hls_startStream_idempotent_witness :
    RTSP.StartStream cfg0 [(7, info7)] 7 "rtsp://cam7-different-url" 5 true
      = (Except.ok info7.hlsURL, [(7, info7)]) :=
  ((hls_startStream_idempotent cfg0 [(7, info7)] 7 "rtsp://cam7"
      "rtsp://cam7-different-url" 0 5 true info7 (by rfl) (by rfl)).1).1

/-- C3: `StopStream` errors exactly when no entry exists; otherwise the
result does not depend on the kill outcome (a kill failure is only
logged), the entry is removed unconditionally, success is returned, and
a subsequent `GetStreamHealth` reports not-found. -/
theorem hls_stopStream_spec (m : RTSP.Registry) (cameraID : Nat) (killOk : Bool) :
    ((RTSP.StopStream m cameraID killOk).1
        = Except.error ("stream not found for camera " ++ toString cameraID)
      ↔ RTSP.mapGet m cameraID = none)
  ∧ RTSP.StopStream m cameraID killOk = RTSP.StopStream m cameraID true
  ∧ (∀ info : RTSP.StreamInfo, RTSP.mapGet m cameraID = some info →
      RTSP.StopStream m cameraID killOk = (Except.ok (), RTSP.mapDelete m cameraID)
      ∧ RTSP.mapGet (RTSP.StopStream m cameraID killOk).2 cameraID = none
      ∧ RTSP.GetStreamHealth (RTSP.StopStream m cameraID killOk).2 cameraID
          = Except.error ("stream not found for camera " ++ toString cameraID)) := by
  refine ⟨?_, ?_, ?_⟩
  · cases hget : RTSP.mapGet m cameraID <;> simp [RTSP.StopStream, hget]
  · cases hget : RTSP.mapGet m cameraID <;> simp [RTSP.StopStream, hget]
  · intro info hget
    refine ⟨?_, ?_, ?_⟩ <;>
      simp [RTSP.StopStream, RTSP.GetStreamHealth, hget, RTSP.mapGet_mapDelete_self]

/-- Closed witness for `hls_stopStream_spec`: stopping camera 7 (kill
fails) then querying health yields the not-found error. -/
theorem hls_stopStream_spec_witness :
    RTSP.GetStreamHealth (RTSP.StopStream [(7, info7)] 7 false).2 7
      = Except.error ("stream not found for camera " ++ toString 7) :=
  ((hls_stopStream_spec [(7, info7)] 7 false).2.2 info7 (by rfl)).2.2

/-- C8: immediately after a successful transcoder start the entry's
health flag is false (health is earned later by the monitor), its
restart counter is reset to zero, and the launch time is recorded. -/
theorem hls_start_success_not_healthy (info : RTSP.StreamInfo) (now : Nat) :
    (RTSP.convertStartSuccess info now).isHealthy = false
  ∧ (RTSP.convertStartSuccess info now).restartCount = 0
  ∧ (RTSP.convertStartSuccess info now).lastUpdate = now :=
  ⟨rfl, rfl, rfl⟩

/-- C10: the WebRTC `StartStream` is a no-op exactly when an entry exists
and is active; an existing inactive entry is replaced by a fresh inactive
entry with an empty peer-connection set and a new conversion is
launched. -/
theorem webrtc_startStream_replaces_inactive (m : WebRTC.Registry)
    (cameraID : Nat) (rtspURL : String) :
    ((WebRTC.StartStream m cameraID rtspURL).2 = false ↔
      ∃ st : WebRTC.WebRTCStream,
        WebRTC.mapGet m cameraID = some st ∧ st.isActive = true)
  ∧ ((WebRTC.StartStream m cameraID rtspURL).2 = false →
      (WebRTC.StartStream m cameraID rtspURL).1 = m)
  ∧ (∀ st : WebRTC.WebRTCStream,
      WebRTC.mapGet m cameraID = some st → st.isActive = false →
      WebRTC.StartStream m cameraID rtspURL
        = (WebRTC.mapSet m cameraID (WebRTC.freshStream cameraID rtspURL), true)
      ∧ WebRTC.mapGet (WebRTC.StartStream m cameraID rtspURL).1 cameraID
          = some (WebRTC.freshStream cameraID rtspURL)
      ∧ (WebRTC.freshStream cameraID rtspURL).peerConnections = []
      ∧ (WebRTC.freshStream cameraID rtspURL).isActive = false) := by
  refine ⟨?_, ?_, ?_⟩
  · cases hget : WebRTC.mapGet m cameraID with
    | none => simp [WebRTC.StartStream, hget]
    | some st =>
        cases ha : st.isActive <;> simp [WebRTC.StartStream, hget, ha]
  · cases hget : WebRTC.mapGet m cameraID with
    | none => simp [WebRTC.StartStream, hget]
    | some st =>
        cases ha : st.isActive <;> simp [WebRTC.StartStream, hget, ha]
  · intro st hget ha
    refine ⟨?_, ?_, rfl, rfl⟩ <;>
      simp [WebRTC.StartStream, hget, ha, WebRTC.wmapGet_mapSet_self]

/-- Closed witness for `webrtc_startStream_replaces_inactive`: camera 3
has an inactive entry, so a start replaces it and launches. -/
theorem webrtc_startStream_replaces_inactive_witness :
    WebRTC.StartStream [(3, wstream3)] 3 "rtsp://cam3"
      = (WebRTC.mapSet [(3, wstream3)] 3 (WebRTC.freshStream 3 "rtsp://cam3"), true) :=
  ((webrtc_startStream_replaces_inactive [(3, wstream3)] 3 "rtsp://cam3").2.2
      wstream3 (by rfl) (by rfl)).1

/-- A restart attempt at the ceiling only clears the health flag. -/
theorem restartStreamUnsafe_at_ceiling (j : RTSP.StreamInfo)
    (h : j.restartCount = 5) :
    RTSP.restartStreamUnsafe j = ({ j with isHealthy := false }, false) := by
  unfold RTSP.restartStreamUnsafe
  simp [h]

/-- At the ceiling, a monitor step keeps the counter at 5 and launches
no conversion, in every branch. -/
theorem checkStreamHealthEntry_at_ceiling (j : RTSP.StreamInfo) (a : Bool)
    (p : Option Nat) (n : Nat) (h : j.restartCount = 5) :
    (RTSP.checkStreamHealthEntry j a p n).1.restartCount = 5
    ∧ (RTSP.checkStreamHealthEntry j a p n).2.2 = false := by
  unfold RTSP.checkStreamHealthEntry
  split
  · split
    · simp [restartStreamUnsafe_at_ceiling j h, h]
    · cases p with
      | some t =>
          simp only
          split
          · simp [restartStreamUnsafe_at_ceiling j h, h]
          · simp [h]
      | none =>
          simp only
          split
          · simp [h]
          · simp [restartStreamUnsafe_at_ceiling j h, h]
  · simp [restartStreamUnsafe_at_ceiling j h, h]

/-- After a stop — whether or not an entry existed — no entry remains. -/
theorem mapGet_stopStream (m : RTSP.Registry) (cameraID : Nat) (killOk : Bool) :
    RTSP.mapGet (RTSP.StopStream m cameraID killOk).2 cameraID = none := by
  cases hget : RTSP.mapGet m cameraID <;>
    simp [RTSP.StopStream, hget, RTSP.mapGet_mapDelete_self]

/-- C2: once the consecutive-restart counter has reached the ceiling 5,
a restart attempt marks the entry unhealthy, launches no process and
leaves the counter at 5; monitor steps never push any counter above 5
and never remove the entry; an explicit stop followed by a start
produces a fresh entry with counter zero. -/
theorem hls_restart_ceiling (info : RTSP.StreamInfo) (alive : Bool)
    (playlistMod : Option Nat) (now : Nat) (m : RTSP.Registry) (cameraID : Nat)
    (cfg : RTSP.RTSPConfig) (url : String) (killOk : Bool) (n1 : Nat)
    (aliveF : Nat → Bool) (modF : Nat → Option Nat)
    (h5 : info.restartCount = 5) :
    RTSP.restartStreamUnsafe info = ({ info with isHealthy := false }, false)
  ∧ (RTSP.checkStreamHealthEntry info alive playlistMod now).1.restartCount = 5
  ∧ (RTSP.checkStreamHealthEntry info alive playlistMod now).2.2 = false
  ∧ (∀ (j : RTSP.StreamInfo) (a : Bool) (p : Option Nat) (n : Nat),
      j.restartCount ≤ 5 → (RTSP.checkStreamHealthEntry j a p n).1.restartCount ≤ 5)
  ∧ (RTSP.mapGet m cameraID = some info →
      RTSP.mapGet (RTSP.checkStreamHealth m aliveF modF now) cameraID
        = some ((RTSP.checkStreamHealthEntry info (aliveF cameraID) (modF cameraID) now).1))
  ∧ (∃ i : RTSP.StreamInfo,
      RTSP.mapGet (RTSP.StartStream cfg (RTSP.StopStream m cameraID killOk).2
          cameraID url n1 true).2 cameraID = some i
      ∧ i.restartCount = 0 ∧ i.isHealthy = false) := by
  refine ⟨restartStreamUnsafe_at_ceiling info h5,
    (checkStreamHealthEntry_at_ceiling info alive playlistMod now h5).1,
    (checkStreamHealthEntry_at_ceiling info alive playlistMod now h5).2,
    fun j a p n h => RTSP.checkStreamHealthEntry_count_le j a p n h,
    ?_, ?_⟩
  · intro hget
    rw [RTSP.mapGet_checkStreamHealth, hget]
    rfl
  · have h0 : RTSP.mapGet (RTSP.StopStream m cameraID killOk).2 cameraID = none :=
      mapGet_stopStream m cameraID killOk
    exact ⟨{ hlsURL := RTSP.hlsURLFor cfg cameraID
             hasFFmpegCmd := false
             rtspURL := url
             outputPath := RTSP.playlistFileFor cfg cameraID
             cameraID := cameraID
             lastUpdate := n1
             restartCount := 0
             isHealthy := false
             useMemoryStream := false },
           by simp [RTSP.StartStream, h0, RTSP.mapGet_mapSet_self], rfl, rfl⟩

/-- Closed witness for `hls_restart_ceiling`: camera 7's exhausted entry
is marked unhealthy without a relaunch. -/
theorem hls_restart_ceiling_witness :
    RTSP.restartStreamUnsafe info7exhausted
      = ({ info7exhausted with isHealthy := false }, false) :=
  (hls_restart_ceiling info7exhausted true none 0 [(7, info7exhausted)] 7 cfg0
      "rtsp://cam7" true 0 (fun _ => true) (fun _ => none) (by rfl)).1

/-- C4: the segment collector never deletes a file whose base name is
referenced by a playlist line (non-empty after trimming, not a comment,
ending in `.ts`), and deletes nothing when the playlist cannot be
read. -/
theorem hls_cleanup_never_deletes_referenced (playlistData : Option String)
    (dirEntries : Option (List String)) :
    (playlistData = none → RTSP.cleanupOldSegments playlistData dirEntries = [])
  ∧ (∀ content line : String, playlistData = some content →
      line ∈ (content.splitOn "\n").map String.trim →
      (line == "") = false → line.startsWith "#" = false →
      line.endsWith ".ts" = true →
      RTSP.baseName line ∉ RTSP.cleanupOldSegments playlistData dirEntries) := by
  constructor
  · intro h
    subst h
    rfl
  · intro content line hc hline hne hcm hts hmem
    subst hc
    cases dirEntries with
    | none => simp [RTSP.cleanupOldSegments] at hmem
    | some files =>
        have hact : RTSP.baseName line ∈ RTSP.activeSegments content := by
          unfold RTSP.activeSegments
          refine List.mem_filterMap.mpr ⟨line, hline, ?_⟩
          simp [hne, hcm, hts]
        unfold RTSP.cleanupOldSegments at hmem
        rcases List.mem_filter.mp hmem with ⟨_, hpred⟩
        simp only [Bool.and_eq_true, Bool.not_eq_true'] at hpred
        have hno : RTSP.baseName line ∉ RTSP.activeSegments content := by
          simpa using hpred.2
        exact hno hact

/-- Closed witness for `hls_cleanup_never_deletes_referenced`: with an
unreadable playlist, a cycle over a non-empty segment directory deletes
nothing. -/
theorem hls_cleanup_never_deletes_referenced_witness :
    RTSP.cleanupOldSegments none (some ["segment_000.ts", "segment_001.ts"]) = [] :=
  (hls_cleanup_never_deletes_referenced none
      (some ["segment_000.ts", "segment_001.ts"])).1 rfl

/-- C5: on a well-formed IVF container the demuxer delivers exactly the
records with non-zero length, in stream order; a zero-length record
produces no delivery and does not abort the loop; an invalid header
signature delivers nothing. -/
theorem webrtc_demuxer_delivers (headerRest : List Nat)
    (records : List (List Nat)) (hlen : headerRest.length = 28)
    (hsz : ∀ r ∈ records, r.length < 4294967296) :
    WebRTC.readAndSendVP8Frames (WebRTC.ivfStream headerRest records)
        = records.filter (fun r => !r.isEmpty)
  ∧ (∀ input : List Nat, 32 ≤ input.length → input.take 4 ≠ WebRTC.dkif →
      WebRTC.readAndSendVP8Frames input = []) := by
  constructor
  · have h1 : WebRTC.ivfStream headerRest records
        = 68 :: 75 :: 73 :: 70 ::
          (headerRest ++ (records.map WebRTC.encodeRecord).flatten) := by
      simp [WebRTC.ivfStream, WebRTC.dkif]
    have h2 : (headerRest ++ (records.map WebRTC.encodeRecord).flatten).drop 28
        = (records.map WebRTC.encodeRecord).flatten := by
      have h3 := List.drop_left headerRest (records.map WebRTC.encodeRecord).flatten
      rwa [hlen] at h3
    have hL : ¬ (68 :: 75 :: 73 :: 70 ::
        (headerRest ++ (records.map WebRTC.encodeRecord).flatten)).length < 32 := by
      simp [List.length_append, hlen]
    rw [h1, WebRTC.readAndSendVP8Frames]
    simp only [hL, if_false, List.take_succ_cons, List.take_zero, List.drop_succ_cons]
    simp [WebRTC.dkif, h2, WebRTC.readFrames_flatten records hsz]
  · intro input hlen32 hsig
    rw [WebRTC.readAndSendVP8Frames]
    simp [Nat.not_lt.mpr hlen32, hsig]

/-- Closed witness for `webrtc_demuxer_delivers`: a stream with records
of lengths 2, 0 and 1 delivers exactly the two non-empty frames in
order. -/
theorem webrtc_demuxer_delivers_witness :
    WebRTC.readAndSendVP8Frames
        (WebRTC.ivfStream (List.replicate 28 0) [[9, 9], [], [7]])
      = [[9, 9], [7]] := by
  have h := (webrtc_demuxer_delivers (List.replicate 28 0) [[9, 9], [], [7]]
      (by decide) (by decide)).1
  simpa using h

/-- C6: the health tick's output-freshness phase: a playlist modified
within 20 seconds of now marks the entry healthy and records the
timestamp; one older than 20 seconds triggers a restart; a missing
playlist with a live process within the 30-second grace period triggers
no restart; past the grace period, or with a dead process, a restart is
triggered. -/
theorem hls_health_freshness (info : RTSP.StreamInfo) (playlistMod : Option Nat)
    (now t : Nat) (hproc : info.hasFFmpegCmd = true) :
    (now - t ≤ 20 * RTSP.second →
      RTSP.checkStreamHealthEntry info true (some t) now
        = ({ info with lastUpdate := t, isHealthy := true },
           RTSP.HealthVerdict.markedHealthy, false))
  ∧ (now - t > 20 * RTSP.second →
      (RTSP.checkStreamHealthEntry info true (some t) now).2.1
        = RTSP.HealthVerdict.restarted)
  ∧ (now - info.lastUpdate < 30 * RTSP.second →
      RTSP.checkStreamHealthEntry info true none now
        = (info, RTSP.HealthVerdict.waited, false))
  ∧ (30 * RTSP.second ≤ now - info.lastUpdate →
      (RTSP.checkStreamHealthEntry info true none now).2.1
        = RTSP.HealthVerdict.restarted)
  ∧ (RTSP.checkStreamHealthEntry info false playlistMod now).2.1
      = RTSP.HealthVerdict.restarted := by
  refine ⟨?_, ?_, ?_, ?_, ?_⟩
  · intro h
    have hnot : ¬ now - t > 20 * RTSP.second := Nat.not_lt.mpr h
    simp [RTSP.checkStreamHealthEntry, hproc, hnot]
  · intro h
    simp [RTSP.checkStreamHealthEntry, hproc, h]
  · intro h
    simp [RTSP.checkStreamHealthEntry, hproc, h]
  · intro h
    have hnot : ¬ now - info.lastUpdate < 30 * RTSP.second := Nat.not_lt.mpr h
    simp [RTSP.checkStreamHealthEntry, hproc, hnot]
  · simp [RTSP.checkStreamHealthEntry, hproc]

/-- Closed witness for `hls_health_freshness`: camera 7 with a playlist
10 seconds old is marked healthy; with no playlist but a live process
10 seconds after launch, the tick waits. -/
theorem hls_health_freshness_witness :
    RTSP.checkStreamHealthEntry info7 true (some 0) (10 * RTSP.second)
      = ({ info7 with lastUpdate := 0, isHealthy := true },
         RTSP.HealthVerdict.markedHealthy, false)
  ∧ RTSP.checkStreamHealthEntry info7 true none (10 * RTSP.second)
      = (info7, RTSP.HealthVerdict.waited, false) := by
  have h := hls_health_freshness info7 none (10 * RTSP.second) 0 (by rfl)
  exact ⟨h.1 (by decide), h.2.2.1 (by decide)⟩

/-- C7 counterexample: for the unhealthy camera-7 entry with counter 2, a
successful relaunch resets the counter to zero while the health flag
stays false — a reset with no false→true transition — and the monitor's
observed-healthy transition leaves the counter at 2 instead of resetting
it. -/
theorem hls_counter_reset_counterexample :
    info7unhealthy.isHealthy = false
  ∧ info7unhealthy.restartCount = 2
  ∧ (RTSP.convertStartSuccess info7unhealthy 100).restartCount = 0
  ∧ (RTSP.convertStartSuccess info7unhealthy 100).isHealthy = false
  ∧ (RTSP.checkStreamHealthEntry info7unhealthy true (some 100) 100).1.isHealthy
      = true
  ∧ (RTSP.checkStreamHealthEntry info7unhealthy true (some 100) 100).1.restartCount
      = 2 := by
  refine ⟨rfl, rfl, rfl, rfl, by decide, by decide⟩

/-- C7 amended: the counter never decreases under a monitor tick, and the
observed-healthy transition leaves it unchanged while setting the flag
true; the reset to zero happens exactly at a successful process
(re)launch, at which point the health flag is set false; a failed launch
or a process exit leaves the counter unchanged. -/
theorem hls_counter_reset_policy (info : RTSP.StreamInfo) (alive : Bool)
    (playlistMod : Option Nat) (now : Nat) :
    info.restartCount
        ≤ (RTSP.checkStreamHealthEntry info alive playlistMod now).1.restartCount
  ∧ ((RTSP.checkStreamHealthEntry info alive playlistMod now).2.1
        = RTSP.HealthVerdict.markedHealthy →
      (RTSP.checkStreamHealthEntry info alive playlistMod now).1.restartCount
          = info.restartCount
      ∧ (RTSP.checkStreamHealthEntry info alive playlistMod now).1.isHealthy = true)
  ∧ (RTSP.convertStartSuccess info now).restartCount = 0
  ∧ (RTSP.convertStartSuccess info now).isHealthy = false
  ∧ (RTSP.convertStartFailure info).restartCount = info.restartCount
  ∧ (RTSP.convertExit info).restartCount = info.restartCount := by
  refine ⟨RTSP.checkStreamHealthEntry_count_ge info alive playlistMod now,
    ?_, rfl, rfl, rfl, rfl⟩
  unfold RTSP.checkStreamHealthEntry
  split
  · split
    · intro h
      simp at h
    · cases playlistMod with
      | some t =>
          simp only
          split
          · intro h
            simp at h
          · intro h
            exact ⟨rfl, rfl⟩
      | none =>
          simp only
          split
          · intro h
            simp at h
          · intro h
            simp at h
  · intro h
    simp at h

/-- Closed witness for `hls_counter_reset_policy`: the healthy-marking
tick on camera 7 keeps the counter value. -/
theorem hls_counter_reset_policy_witness :
    (RTSP.checkStreamHealthEntry info7 true (some 3) 5).1.restartCount
        = info7.restartCount
  ∧ (RTSP.checkStreamHealthEntry info7 true (some 3) 5).1.isHealthy = true :=
  (hls_counter_reset_policy info7 true (some 3) 5).2.1 (by decide)

/-- C9: in the paced delivery loop with the nominal 33.33 ms interval,
every two consecutive deliveries are separated by at least one interval,
for every starting timestamp and all read/write delays. -/
theorem webrtc_pacing_spacing (lastFrameTime : Nat) (delays : List (Nat × Nat)) :
    List.Chain' (fun a b => a + WebRTC.frameDuration ≤ b)
      (WebRTC.paceTimes lastFrameTime delays) :=
  WebRTC.paceTimes_chain lastFrameTime delays
